import Mathlib

/-!
Verification of the font-processing CLI driver (`src/tools/process_font.py`).

The driver is modelled as a pure function `mainRun` over:
  * an argument vector (Python's `sys.argv`, program name included),
  * an abstract library collaborator (`Library`) supplying the three
    fallible operations `load` (TTFont construction), `removeOverlaps`
    and `save` (in-place mutation is modelled by state passing),
  * an abstract filesystem (`FS`, an association list path to bytes).

A run yields a `RunResult`: the event trace (console lines printed and
library operations invoked, in order), the final filesystem, and the
outcome (process exit with a code, or an uncaught `BaseException`
propagating out of `main`).  Python's `except Exception` catches only
errors of the ordinary exception class, modelled by `PyError.exc`;
`PyError.base` stands for a `BaseException` that is not an `Exception`
(e.g. `KeyboardInterrupt`), which the handler does not catch.
-/

/-- A Python exception as seen by the driver: either an ordinary
`Exception` (caught by `except Exception as e`) or a `BaseException`
that is not an `Exception` (not caught), each carrying its `str(e)`
message text. -/
inductive PyError where
  | exc (msg : String)
  | base (msg : String)
deriving DecidableEq, Repr

/-- A console line the driver can print, structured; `Line.render`
gives the exact text of the corresponding Python `print` call. -/
inductive Line where
  | usage
  | loadingFont (path : String)
  | removingOverlaps
  | savingTo (path : String)
  | done
  | errorProcessing (msg : String)
deriving DecidableEq, Repr

/-- Exact text of each printed line, as in the Python source. -/
def Line.render : Line → String
  | .usage => "Usage: python process_font.py <input_ttf> <output_ttf>"
  | .loadingFont path => "-- Loading font: " ++ path
  | .removingOverlaps => "-- Removing overlaps (this may take a moment)..."
  | .savingTo path => "-- Saving to: " ++ path
  | .done => "-- Done."
  | .errorProcessing msg => "Error processing font: " ++ msg

/-- An observable event of a run: a console line printed, or one of the
three library operations being invoked. -/
inductive Event where
  | printed (l : Line)
  | loadCall (path : String)
  | removeCall
  | saveCall (path : String)
deriving DecidableEq, Repr

/-- The filesystem, as an association list from paths to file bytes;
a later entry shadows an earlier one for the same path. -/
abbrev FS := List (String × List Nat)

/-- Look a path up in the filesystem. -/
def FS.read (fs : FS) (p : String) : Option (List Nat) :=
  fs.lookup p

/-- The external font library (fontTools), as a black box: `load` reads
the filesystem at a path and yields a document or fails; `removeOverlaps`
transforms a document in place (state passing) or fails; `save` attempts
to write a document at a path, returning the filesystem it leaves behind
(partial bytes may remain on failure) together with success or failure. -/
structure Library (Doc : Type) where
  load : FS → String → Except PyError Doc
  removeOverlaps : Doc → Except PyError Doc
  save : Doc → String → FS → FS × Except PyError Unit

/-- How a run ends: `sys.exit`/normal return with an exit code, or an
uncaught `BaseException` propagating out of `main`. -/
inductive Outcome where
  | exited (code : Nat)
  | propagated (e : PyError)
deriving DecidableEq, Repr

/-- The observable result of one invocation of the driver. -/
structure RunResult where
  trace : List Event
  fs : FS
  outcome : Outcome
deriving DecidableEq, Repr

/-- The `except Exception as e` handler wrapped around the pipeline:
an ordinary exception is caught, `Error processing font: <msg>` is
printed and the process exits 1; any other `BaseException` propagates
with no further printing. -/
def handleExc (t : List Event) (fs : FS) (e : PyError) : RunResult :=
  match e with
  | .exc msg =>
      { trace := t ++ [.printed (.errorProcessing msg)], fs := fs,
        outcome := .exited 1 }
  | .base msg =>
      { trace := t, fs := fs, outcome := .propagated (.base msg) }

/-- The driver's `main`: argument-count check, then the strictly ordered
load / removeOverlaps / save pipeline with a status line before each
step, a completion line after a successful save, and the top-level
exception handler. -/
def mainRun {Doc : Type} (lib : Library Doc) (argv : List String) (fs : FS) :
    RunResult :=
  match argv with
  | [_prog, input_path, output_path] =>
      let t1 : List Event :=
        [.printed (.loadingFont input_path), .loadCall input_path]
      match lib.load fs input_path with
      | .error e => handleExc t1 fs e
      | .ok font =>
          let t2 := t1 ++ [.printed .removingOverlaps, .removeCall]
          match lib.removeOverlaps font with
          | .error e => handleExc t2 fs e
          | .ok font2 =>
              let t3 := t2 ++ [.printed (.savingTo output_path),
                .saveCall output_path]
              let sres := lib.save font2 output_path fs
              match sres.2 with
              | .error e => handleExc t3 sres.1 e
              | .ok _ =>
                  { trace := t3 ++ [.printed .done], fs := sres.1,
                    outcome := .exited 0 }
  | _ =>
      { trace := [.printed .usage], fs := fs, outcome := .exited 1 }

/-- Is this event the driver's error line being printed? -/
def isErrorLine : Event → Bool
  | .printed (.errorProcessing _) => true
  | _ => false

/-- Number of `Error processing font:` lines printed in a trace. -/
def errorLineCount (t : List Event) : Nat :=
  t.countP isErrorLine

/-- Trace segment of the load step: its status line, then the call. -/
def loadSeg (i : String) : List Event :=
  [.printed (.loadingFont i), .loadCall i]

/-- Trace segment of the overlap-removal step. -/
def removeSeg : List Event :=
  [.printed .removingOverlaps, .removeCall]

/-- Trace segment of the save step. -/
def saveSeg (o : String) : List Event :=
  [.printed (.savingTo o), .saveCall o]

/-- Trace tail contributed by the exception handler for a failure. -/
def excTail : PyError → List Event
  | .exc msg => [.printed (.errorProcessing msg)]
  | .base _ => []

/-- A concrete all-succeeding library over `Nat` documents, for
evaluating the driver on closed inputs. -/
def okLib : Library Nat where
  load := fun _ _ => .ok 0
  removeOverlaps := fun d => .ok d
  save := fun _ p fs => ((p, [7]) :: fs, .ok ())

/-- A second, definitionally equal presentation of `okLib`. -/
def okLib2 : Library Nat where
  load := fun _ _ => .ok (0 + 0)
  removeOverlaps := fun d => .ok (d + 0)
  save := fun _ p fs => ((p, [7]) :: fs, .ok ())

/-- A concrete library whose load fails with an ordinary exception. -/
def failLoadLib : Library Nat where
  load := fun _ _ => .error (.exc "boom")
  removeOverlaps := fun d => .ok d
  save := fun _ p fs => ((p, [7]) :: fs, .ok ())

/-- A concrete library whose load raises a `BaseException` that is not
an `Exception` (e.g. `KeyboardInterrupt`). -/
def baseFailLib : Library Nat where
  load := fun _ _ => .error (.base "interrupt")
  removeOverlaps := fun d => .ok d
  save := fun _ p fs => ((p, [7]) :: fs, .ok ())

/-- A concrete library whose save fails partway, after having written
partial bytes to the output path. -/
def failSaveLib : Library Nat where
  load := fun _ _ => .ok 0
  removeOverlaps := fun d => .ok d
  save := fun _ p fs => ((p, [1]) :: fs, .error (.exc "disk full"))

/-- C1: whenever load, overlap-removal or save raises an ordinary
exception, the top-level handler catches it, exactly one line
`Error processing font: <message>` is printed (with the exception's
message text), and the process exits with code 1. -/
theorem c1_exception_reported {Doc : Type} (lib : Library Doc)
    (prog i o : String) (fs : FS) (msg : String)
    (h : lib.load fs i = .error (.exc msg) ∨
      (∃ d, lib.load fs i = .ok d ∧
        lib.removeOverlaps d = .error (.exc msg)) ∨
      (∃ d d2, lib.load fs i = .ok d ∧ lib.removeOverlaps d = .ok d2 ∧
        (lib.save d2 o fs).2 = .error (.exc msg))) :
    (mainRun lib [prog, i, o] fs).outcome = .exited 1 ∧
    errorLineCount (mainRun lib [prog, i, o] fs).trace = 1 ∧
    Event.printed (.errorProcessing msg) ∈ (mainRun lib [prog, i, o] fs).trace ∧
    Line.render (.errorProcessing msg) = "Error processing font: " ++ msg := by
  rcases h with h | ⟨d, hd, h⟩ | ⟨d, d2, hd, hd2, h⟩
  · simp [mainRun, h, handleExc, errorLineCount, isErrorLine,
      List.countP_cons, Line.render]
  · simp [mainRun, hd, h, handleExc, errorLineCount, isErrorLine,
      List.countP_cons, Line.render]
  · simp [mainRun, hd, hd2, h, handleExc, errorLineCount, isErrorLine,
      List.countP_cons, Line.render]

/-- Witness for C1 at a concrete failing load. -/
theorem c1_exception_reported_witness :
    (mainRun failLoadLib ["p", "in.ttf", "out.ttf"] []).outcome = .exited 1 ∧
    errorLineCount (mainRun failLoadLib ["p", "in.ttf", "out.ttf"] []).trace = 1 ∧
    Event.printed (.errorProcessing "boom") ∈
      (mainRun failLoadLib ["p", "in.ttf", "out.ttf"] []).trace ∧
    Line.render (.errorProcessing "boom") = "Error processing font: " ++ "boom" :=
  c1_exception_reported failLoadLib "p" "in.ttf" "out.ttf" [] "boom" (Or.inl rfl)

/-- C2: with an argument count other than two positional arguments
(argv length other than 3, program name included), the driver prints
exactly the usage line, exits with code 1, leaves the filesystem
unchanged, and invokes none of the three library operations. -/
theorem c2_wrong_arg_count {Doc : Type} (lib : Library Doc)
    (argv : List String) (fs : FS) (h : argv.length ≠ 3) :
    (mainRun lib argv fs).trace = [.printed .usage] ∧
    Line.render .usage = "Usage: python process_font.py <input_ttf> <output_ttf>" ∧
    (mainRun lib argv fs).outcome = .exited 1 ∧
    (mainRun lib argv fs).fs = fs ∧
    (∀ p, Event.loadCall p ∉ (mainRun lib argv fs).trace) ∧
    Event.removeCall ∉ (mainRun lib argv fs).trace ∧
    (∀ p, Event.saveCall p ∉ (mainRun lib argv fs).trace) := by
  match argv with
  | [] => simp [mainRun, Line.render]
  | [a] => simp [mainRun, Line.render]
  | [a, b] => simp [mainRun, Line.render]
  | [a, b, c] => exact absurd rfl h
  | a :: b :: c :: d :: tl => simp [mainRun, Line.render]

/-- Witness for C2 at a concrete one-argument vector. -/
theorem c2_wrong_arg_count_witness :
    (mainRun okLib ["p"] []).trace = [.printed .usage] ∧
    Line.render .usage = "Usage: python process_font.py <input_ttf> <output_ttf>" ∧
    (mainRun okLib ["p"] []).outcome = .exited 1 ∧
    (mainRun okLib ["p"] []).fs = [] ∧
    (∀ p, Event.loadCall p ∉ (mainRun okLib ["p"] []).trace) ∧
    Event.removeCall ∉ (mainRun okLib ["p"] []).trace ∧
    (∀ p, Event.saveCall p ∉ (mainRun okLib ["p"] []).trace) :=
  c2_wrong_arg_count okLib ["p"] [] (by decide)

/-- C3: with exactly two positional arguments the pipeline is load,
then overlap-removal, then save, in that strict order, each preceded
immediately by its status line; the completion line is printed only
after a successful save; each failing run stops at its first failure
with no retry.  The trace of any such run is exactly one of the four
forms below. -/
theorem c3_pipeline_order {Doc : Type} (lib : Library Doc)
    (prog i o : String) (fs : FS) :
    (∃ e, lib.load fs i = .error e ∧
      (mainRun lib [prog, i, o] fs).trace = loadSeg i ++ excTail e) ∨
    (∃ d e, lib.load fs i = .ok d ∧ lib.removeOverlaps d = .error e ∧
      (mainRun lib [prog, i, o] fs).trace =
        loadSeg i ++ removeSeg ++ excTail e) ∨
    (∃ d d2 e, lib.load fs i = .ok d ∧ lib.removeOverlaps d = .ok d2 ∧
      (lib.save d2 o fs).2 = .error e ∧
      (mainRun lib [prog, i, o] fs).trace =
        loadSeg i ++ removeSeg ++ saveSeg o ++ excTail e) ∨
    (∃ d d2, lib.load fs i = .ok d ∧ lib.removeOverlaps d = .ok d2 ∧
      (lib.save d2 o fs).2 = .ok () ∧
      (mainRun lib [prog, i, o] fs).trace =
        loadSeg i ++ removeSeg ++ saveSeg o ++ [.printed .done]) := by
  cases hl : lib.load fs i with
  | error e =>
      exact Or.inl ⟨e, rfl, by
        cases e <;>
          simp [mainRun, hl, handleExc, loadSeg, excTail]⟩
  | ok d =>
      cases hr : lib.removeOverlaps d with
      | error e =>
          exact Or.inr (Or.inl ⟨d, e, rfl, hr, by
            cases e <;>
              simp [mainRun, hl, hr, handleExc, loadSeg, removeSeg, excTail]⟩)
      | ok d2 =>
          cases hs : (lib.save d2 o fs).2 with
          | error e =>
              exact Or.inr (Or.inr (Or.inl ⟨d, d2, e, rfl, hr, hs, by
                cases e <;>
                  simp [mainRun, hl, hr, hs, handleExc, loadSeg, removeSeg,
                    saveSeg, excTail]⟩))
          | ok u =>
              cases u
              exact Or.inr (Or.inr (Or.inr ⟨d, d2, rfl, hr, hs, by
                simp [mainRun, hl, hr, hs, loadSeg, removeSeg, saveSeg]⟩))

/-- C4: save is never invoked unless both load and overlap-removal
succeeded; in particular, when the input path does not exist and load
therefore fails, the run exits 1 with the error line carrying the
failure reason, the filesystem is unchanged, and no output file is
created. -/
theorem c4_save_only_after_success {Doc : Type} (lib : Library Doc)
    (prog i o : String) (fs : FS)
    (h : ¬ ∃ d d2, lib.load fs i = .ok d ∧ lib.removeOverlaps d = .ok d2) :
    (∀ p, Event.saveCall p ∉ (mainRun lib [prog, i, o] fs).trace) ∧
    (∀ msg, fs.read i = none → lib.load fs i = .error (.exc msg) →
      (mainRun lib [prog, i, o] fs).outcome = .exited 1 ∧
      Event.printed (.errorProcessing msg) ∈
        (mainRun lib [prog, i, o] fs).trace ∧
      (mainRun lib [prog, i, o] fs).fs = fs ∧
      (fs.read o = none → ((mainRun lib [prog, i, o] fs).fs).read o = none)) := by
  constructor
  · intro p
    cases hl : lib.load fs i with
    | error e =>
        cases e <;> simp [mainRun, hl, handleExc]
    | ok d =>
        cases hr : lib.removeOverlaps d with
        | error e =>
            cases e <;> simp [mainRun, hl, hr, handleExc]
        | ok d2 =>
            exact absurd ⟨d, d2, hl, hr⟩ h
  · intro msg _ hl
    simp [mainRun, hl, handleExc]

/-- Witness for C4 at a concrete run with an empty filesystem and a
load failure. -/
theorem c4_save_only_after_success_witness :
    Event.saveCall "out.ttf" ∉
      (mainRun failLoadLib ["p", "in.ttf", "out.ttf"] []).trace ∧
    (mainRun failLoadLib ["p", "in.ttf", "out.ttf"] []).outcome = .exited 1 ∧
    Event.printed (.errorProcessing "boom") ∈
      (mainRun failLoadLib ["p", "in.ttf", "out.ttf"] []).trace ∧
    (mainRun failLoadLib ["p", "in.ttf", "out.ttf"] []).fs = [] ∧
    ((mainRun failLoadLib ["p", "in.ttf", "out.ttf"] []).fs).read "out.ttf"
      = none := by
  have h := c4_save_only_after_success failLoadLib "p" "in.ttf" "out.ttf" []
    (by rintro ⟨d, d2, hd, -⟩; simp [failLoadLib] at hd)
  have h2 := h.2 "boom" rfl rfl
  exact ⟨h.1 "out.ttf", h2.1, h2.2.1, h2.2.2.1, h2.2.2.2 rfl⟩

/-- C5: when load, overlap-removal and save all succeed (and the
collaborator's successful save leaves the output path present, as its
contract states), the run exits with code 0 and the output path exists
in the final filesystem. -/
theorem c5_success_exit_zero {Doc : Type} (lib : Library Doc)
    (prog i o : String) (fs : FS) (d d2 : Doc) (data : List Nat)
    (hl : lib.load fs i = .ok d)
    (hr : lib.removeOverlaps d = .ok d2)
    (hs : (lib.save d2 o fs).2 = .ok ())
    (hw : ((lib.save d2 o fs).1).read o = some data) :
    (mainRun lib [prog, i, o] fs).outcome = .exited 0 ∧
    ((mainRun lib [prog, i, o] fs).fs).read o = some data := by
  simp [mainRun, hl, hr, hs, hw]

/-- Witness for C5 at a concrete all-succeeding run. -/
theorem c5_success_exit_zero_witness :
    (mainRun okLib ["p", "in.ttf", "out.ttf"] []).outcome = .exited 0 ∧
    ((mainRun okLib ["p", "in.ttf", "out.ttf"] []).fs).read "out.ttf"
      = some [7] :=
  c5_success_exit_zero okLib "p" "in.ttf" "out.ttf" [] 0 0 [7]
    rfl rfl rfl (by decide)

/-- C6: when save fails partway, the driver performs no cleanup: the
final filesystem is exactly the one the failed save attempt left
behind, so any partial bytes written to the output path remain. -/
theorem c6_no_cleanup_on_save_failure {Doc : Type} (lib : Library Doc)
    (prog i o : String) (fs : FS) (d d2 : Doc) (e : PyError)
    (hl : lib.load fs i = .ok d)
    (hr : lib.removeOverlaps d = .ok d2)
    (hs : (lib.save d2 o fs).2 = .error e) :
    (mainRun lib [prog, i, o] fs).fs = (lib.save d2 o fs).1 ∧
    ((mainRun lib [prog, i, o] fs).fs).read o = ((lib.save d2 o fs).1).read o := by
  cases e <;> simp [mainRun, hl, hr, hs, handleExc]

/-- Witness for C6 at a concrete run whose save fails after writing
partial bytes. -/
theorem c6_no_cleanup_on_save_failure_witness :
    (mainRun failSaveLib ["p", "in.ttf", "out.ttf"] []).fs
      = (failSaveLib.save 0 "out.ttf" []).1 ∧
    ((mainRun failSaveLib ["p", "in.ttf", "out.ttf"] []).fs).read "out.ttf"
      = ((failSaveLib.save 0 "out.ttf" []).1).read "out.ttf" :=
  c6_no_cleanup_on_save_failure failSaveLib "p" "in.ttf" "out.ttf" [] 0 0
    (.exc "disk full") rfl rfl rfl

/-- C7: the driver is deterministic: two runs with the same argument
vector, the same starting filesystem and pointwise-identical
collaborator behavior produce the same trace (hence the same console
output), the same final filesystem and the same outcome. -/
theorem c7_deterministic {Doc : Type} (lib1 lib2 : Library Doc)
    (argv : List String) (fs : FS)
    (hl : lib1.load = lib2.load)
    (hr : lib1.removeOverlaps = lib2.removeOverlaps)
    (hs : lib1.save = lib2.save) :
    mainRun lib1 argv fs = mainRun lib2 argv fs := by
  have h12 : lib1 = lib2 := by
    obtain ⟨l1, r1, s1⟩ := lib1
    obtain ⟨l2, r2, s2⟩ := lib2
    simp_all
  rw [h12]

/-- Witness for C7 at two separately defined, pointwise-equal
libraries. -/
theorem c7_deterministic_witness :
    mainRun okLib ["p", "in.ttf", "out.ttf"] []
      = mainRun okLib2 ["p", "in.ttf", "out.ttf"] [] :=
  c7_deterministic okLib okLib2 ["p", "in.ttf", "out.ttf"] [] rfl rfl rfl

/-- C9: a `BaseException` that is not an `Exception` raised by load,
overlap-removal or save is not caught by the handler: it propagates out
of the driver and no `Error processing font:` line is printed. -/
theorem c9_base_exception_propagates {Doc : Type} (lib : Library Doc)
    (prog i o : String) (fs : FS) (msg : String)
    (h : lib.load fs i = .error (.base msg) ∨
      (∃ d, lib.load fs i = .ok d ∧
        lib.removeOverlaps d = .error (.base msg)) ∨
      (∃ d d2, lib.load fs i = .ok d ∧ lib.removeOverlaps d = .ok d2 ∧
        (lib.save d2 o fs).2 = .error (.base msg))) :
    (mainRun lib [prog, i, o] fs).outcome = .propagated (.base msg) ∧
    errorLineCount (mainRun lib [prog, i, o] fs).trace = 0 := by
  rcases h with h | ⟨d, hd, h⟩ | ⟨d, d2, hd, hd2, h⟩
  · simp [mainRun, h, handleExc, errorLineCount, isErrorLine,
      List.countP_cons]
  · simp [mainRun, hd, h, handleExc, errorLineCount, isErrorLine,
      List.countP_cons]
  · simp [mainRun, hd, hd2, h, handleExc, errorLineCount, isErrorLine,
      List.countP_cons]

/-- Witness for C9 at a concrete load interrupted by a
`BaseException`. -/
theorem c9_base_exception_propagates_witness :
    (mainRun baseFailLib ["p", "in.ttf", "out.ttf"] []).outcome
      = .propagated (.base "interrupt") ∧
    errorLineCount (mainRun baseFailLib ["p", "in.ttf", "out.ttf"] []).trace
      = 0 :=
  c9_base_exception_propagates baseFailLib "p" "in.ttf" "out.ttf" []
    "interrupt" (Or.inl rfl)

/-- C10: the driver never compares the two paths: when input and output
are the same string and load and overlap-removal succeed, the save step
is invoked on that very path and the final filesystem is whatever the
save attempt did there, i.e. the original input file is overwritten in
place. -/
theorem c10_same_path_overwrites {Doc : Type} (lib : Library Doc)
    (prog p : String) (fs : FS) (d d2 : Doc)
    (hl : lib.load fs p = .ok d)
    (hr : lib.removeOverlaps d = .ok d2) :
    Event.loadCall p ∈ (mainRun lib [prog, p, p] fs).trace ∧
    Event.saveCall p ∈ (mainRun lib [prog, p, p] fs).trace ∧
    (mainRun lib [prog, p, p] fs).fs = (lib.save d2 p fs).1 := by
  cases hs : (lib.save d2 p fs).2 with
  | error e =>
      cases e <;> simp [mainRun, hl, hr, hs, handleExc]
  | ok u =>
      cases u
      simp [mainRun, hl, hr, hs]

/-- Witness for C10 at a concrete run whose input and output paths are
the same string. -/
theorem c10_same_path_overwrites_witness :
    Event.loadCall "font.ttf"
      ∈ (mainRun okLib ["p", "font.ttf", "font.ttf"] []).trace ∧
    Event.saveCall "font.ttf"
      ∈ (mainRun okLib ["p", "font.ttf", "font.ttf"] []).trace ∧
    (mainRun okLib ["p", "font.ttf", "font.ttf"] []).fs
      = (okLib.save 0 "font.ttf" []).1 :=
  c10_same_path_overwrites okLib "p" "font.ttf" [] 0 0 rfl rfl
